import Mathlib

/-!
Verification development for the PicoW PowerMonitor firmware (main.py).

The script is embedded shallowly: every monitored global becomes a field of
SysState, each function of the script becomes a Lean function on that state,
and the collaborators (Wi-Fi link, INA219 sensor, NTP client, MQTT broker,
wall clock) are modelled as per-tick inputs gathered in TickEnv.  Python
floats are modelled as rational numbers; Python exceptions raised by a
collaborator are modelled as Except values, and a try/except block becomes a
match on that Except.
-/

/-- Left-zero-pad the decimal representation of a natural number to a given
width (source function i2s_l; a Python negative string repetition yields the
empty string, which Nat subtraction matches). -/
def i2s_l (v : ℕ) (len_t : ℕ) : String :=
  let s := toString v
  String.mk (List.replicate (len_t - s.length) '0') ++ s

/-- Seconds to hh:mm:ss (source function sec_to_str): h = sec // 3600,
m = sec % 3600 // 60, s = sec % 60, each zero-padded to width 2 and never
truncated. -/
def sec_to_str (sec : ℕ) : String :=
  i2s_l (sec / 3600) 2 ++ ":" ++ i2s_l (sec % 3600 / 60) 2 ++ ":" ++ i2s_l (sec % 60) 2

/-- Round a rational to the nearest integer, ties to even: the rounding used
by CPython when formatting a float with a fixed number of decimals. -/
def roundHalfEven (q : ℚ) : ℤ :=
  let f := ⌊q⌋
  let r := q - f
  if r < 1 / 2 then f
  else if 1 / 2 < r then f + 1
  else if f % 2 = 0 then f else f + 1

/-- Fixed-point decimal formatting with d decimals, modelling the Python
format specification .df applied to a (here rational-valued) float. -/
def fmtFixed (d : ℕ) (q : ℚ) : String :=
  let n := roundHalfEven (q * 10 ^ d)
  if d = 0 then toString n
  else
    (if n < 0 then "-" else "") ++ toString (n.natAbs / 10 ^ d) ++ "." ++
      i2s_l (n.natAbs % 10 ^ d) d

/-- The retry bookkeeping shared by the two connectivity machines:
counter models loop_rtc / loop_mqtt, flag models ntc_flag / mqtt_flag
(0 = not connected, 1 = connected). -/
structure RetrySt where
  counter : ℕ
  flag : ℕ
  deriving Repr, DecidableEq

/-- One tick of a connectivity machine (source functions check_rtc and
check_mqtt_con, whose bodies are identical up to renaming).  The counter is
incremented mod 40; when the incremented counter is at least 3, the flag is
clear and the link is up, the attempt (upd_rtc or con_mqtt_server) runs:
it sets the flag to 1 on success and 0 on failure, and the counter is reset
to 0.  The returned Bool records whether an attempt was made. -/
def retryStep (linkUp : Bool) (attemptOk : Bool) (s : RetrySt) : RetrySt × Bool :=
  let c := (s.counter + 1) % 40
  if 3 ≤ c ∧ s.flag = 0 ∧ linkUp = true then
    (⟨0, if attemptOk then 1 else 0⟩, true)
  else
    (⟨c, s.flag⟩, false)

/-- Run a connectivity machine over a list of per-tick environments,
each entry giving (link precondition, attempt outcome). -/
def retryRunL : List (Bool × Bool) → RetrySt → RetrySt
  | [], s => s
  | e :: es, s => retryRunL es (retryStep e.1 e.2 s).1

/-- The attempt trace of a connectivity machine over a list of per-tick
environments: entry n tells whether tick n made a connection attempt. -/
def retryTrace : List (Bool × Bool) → RetrySt → List Bool
  | [], _ => []
  | e :: es, s => (retryStep e.1 e.2 s).2 :: retryTrace es (retryStep e.1 e.2 s).1

/-- A byte as delivered by the I2C bus collaborator. -/
def Byte : Type := Fin 256

/-- The INA219 register read body before exception handling: the bus
collaborator either raises (modelled as Except.error) or returns two bytes,
which are combined as (raw0 << 8) | raw1. -/
def read_reg_body (bus : ℕ → Except String (Byte × Byte)) (reg : ℕ) : Except String ℕ :=
  match bus reg with
  | Except.error e => Except.error e
  | Except.ok (b0, b1) => Except.ok ((b0.val <<< 8) ||| b1.val)

/-- Source function read_ina219_register: the body runs under try/except,
and any raised error is caught and turned into None. -/
def read_ina219_register (bus : ℕ → Except String (Byte × Byte)) (reg : ℕ) : Option ℕ :=
  match read_reg_body bus reg with
  | Except.ok v => some v
  | Except.error _ => none

/-- INA219 register addresses used by the debug poll. -/
def INA219_SHUNT_VOLTAGE : ℕ := 1
def INA219_BUS_VOLTAGE : ℕ := 2
def INA219_POWER : ℕ := 3
def INA219_CURRENT : ℕ := 4

/-- Source function real_time_register_read: reads four registers through
read_ina219_register (each already exception-safe, yielding an Option),
formats and prints them, and returns the record; its own try/except would
turn a raised error into None, but no expression in the body can raise. -/
def real_time_register_read (bus : ℕ → Except String (Byte × Byte)) :
    Option (Option ℕ × Option ℕ × Option ℕ × Option ℕ) :=
  some (read_ina219_register bus INA219_BUS_VOLTAGE,
        read_ina219_register bus INA219_CURRENT,
        read_ina219_register bus INA219_SHUNT_VOLTAGE,
        read_ina219_register bus INA219_POWER)

/-- The mutable globals of the script. -/
structure SysState where
  cur_vol_v : ℚ
  cur_cur_mA : ℚ
  cur_pwr_W : ℚ
  con_pwr_mWh : ℚ
  cum_tim_s : ℕ
  upt_tim_str : String
  ntc_flag : ℕ
  mqtt_flag : ℕ
  loop_rtc : ℕ
  loop_mqtt : ℕ
  led : Bool
  str_vol_v : String
  str_vol_ma : String
  str_pwr_W : String
  str_vol_mWh : String
  str_tim : String
  deriving Repr, DecidableEq

/-- The power-on values of the globals (module top of main.py). -/
def bootState : SysState where
  cur_vol_v := 0
  cur_cur_mA := 0
  cur_pwr_W := 0
  con_pwr_mWh := 0
  cum_tim_s := 0
  upt_tim_str := ""
  ntc_flag := 0
  mqtt_flag := 0
  loop_rtc := 5
  loop_mqtt := 5
  led := false
  str_vol_v := "0.0"
  str_vol_ma := "0"
  str_pwr_W := "0.0"
  str_vol_mWh := "0"
  str_tim := "00:00:00"

/-- Per-tick behaviour of the collaborators: Wi-Fi association state,
number of devices the boot I2C scan found, INA219 bus voltage and current
readings, outcomes of an NTP sync and an MQTT connect were they attempted,
per-channel MQTT publish success, and the wall-clock string that
get_strftime would produce. -/
structure TickEnv where
  linkUp : Bool
  sensorCount : ℕ
  inaVol : ℚ
  inaCur : ℚ
  ntpOk : Bool
  mqttOk : Bool
  pubOk : String → Bool
  stamp : String

/-- Source function get_pwr_V_ma: when the boot scan found exactly one
device, voltage and current (scaled by 10 for the 0.01 Ohm shunt) are read
from the sensor; a negative current is then clamped to 0, and real-time
power is derived as V * I / 1000. -/
def get_pwr_V_ma (sensorCount : ℕ) (inaVol inaCur : ℚ) (s : SysState) : SysState :=
  let s1 := if sensorCount = 1 then
              { s with cur_vol_v := inaVol, cur_cur_mA := inaCur * 10 }
            else s
  let s2 := if s1.cur_cur_mA < 0 then { s1 with cur_cur_mA := 0 } else s1
  { s2 with cur_pwr_W := s2.cur_vol_v * s2.cur_cur_mA / 1000 }

/-- Source function get_pwr_mWh: integrate power over the 1 s tick. -/
def get_pwr_mWh (s : SysState) : SysState :=
  { s with con_pwr_mWh := s.con_pwr_mWh + s.cur_vol_v * s.cur_cur_mA / 3600 }

/-- Source function check_rtc, expressed through the shared retry step. -/
def check_rtc (linkUp ntpOk : Bool) (s : SysState) : SysState :=
  let r := (retryStep linkUp ntpOk ⟨s.loop_rtc, s.ntc_flag⟩).1
  { s with loop_rtc := r.counter, ntc_flag := r.flag }

/-- Source function check_mqtt_con, expressed through the shared retry step. -/
def check_mqtt_con (linkUp mqttOk : Bool) (s : SysState) : SysState :=
  let r := (retryStep linkUp mqttOk ⟨s.loop_mqtt, s.mqtt_flag⟩).1
  { s with loop_mqtt := r.counter, mqtt_flag := r.flag }

/-- Source function tran_to_str: regenerate every display string. -/
def tran_to_str (s : SysState) : SysState :=
  { s with
    str_vol_v := fmtFixed 3 s.cur_vol_v
    str_vol_ma := fmtFixed 1 s.cur_cur_mA
    str_pwr_W := fmtFixed 3 s.cur_pwr_W
    str_vol_mWh := fmtFixed 0 s.con_pwr_mWh
    str_tim := sec_to_str s.cum_tim_s }

/-- Source function show_msg: the writes issued to the display, as
(text, x, y) triples. -/
def show_msg (linkUp : Bool) (s : SysState) : List (String × ℕ × ℕ) :=
  [(s.str_vol_v ++ "V   ", 104, 8),
   (s.str_vol_ma ++ "mA  ", 104, 48),
   (s.str_vol_mWh ++ "mWh ", 104, 88),
   (s.str_pwr_W ++ "W   ", 104, 128),
   ((if linkUp then "Connected" else "Disconnected"), 104, 168),
   (s.upt_tim_str, 12, 208)]

/-- The six publish channels with their payloads, in source order. -/
def mqttMsgs (s : SysState) : List (String × String) :=
  [("str_tim", s.str_tim),
   ("str_vol_v", s.str_vol_v),
   ("str_vol_ma", s.str_vol_ma),
   ("str_pwr_W", s.str_pwr_W),
   ("str_vol_mWh", s.str_vol_mWh),
   ("upt_tim_str", s.upt_tim_str)]

/-- Sequential publishing under the single try block of mqtt_check_msg:
each message is attempted in turn; the first failing publish raises, so it
is the last message attempted and the rest are skipped.  The result lists
the messages for which publish was actually called. -/
def pubSeq (ok : String → Bool) : List (String × String) → List (String × String)
  | [] => []
  | m :: ms => if ok m.1 then m :: pubSeq ok ms else [m]

/-- Source function mqtt_check_msg: when the link is up, publish the six
fields inside one try/except; the result is the list of attempted
(channel, payload) pairs. -/
def mqtt_check_msg (linkUp : Bool) (ok : String → Bool) (s : SysState) :
    List (String × String) :=
  if linkUp then pubSeq ok (mqttMsgs s) else []

/-- Source function timer_fun, the 1 s scheduler callback, in source order:
capture timestamp, sample, integrate, toggle the LED, advance the time-sync
machine, format, render, advance the broker-connect machine, publish, and
increment the elapsed counter last.  Returns the new state together with
the display writes and the attempted publishes of this tick. -/
def timer_fun (env : TickEnv) (s : SysState) :
    SysState × List (String × ℕ × ℕ) × List (String × String) :=
  let s1 := { s with upt_tim_str := env.stamp }
  let s2 := get_pwr_V_ma env.sensorCount env.inaVol env.inaCur s1
  let s3 := get_pwr_mWh s2
  let s4 := { s3 with led := !s3.led }
  let s5 := check_rtc env.linkUp env.ntpOk s4
  let s6 := tran_to_str s5
  let rendered := show_msg env.linkUp s6
  let s7 := check_mqtt_con env.linkUp env.mqttOk s6
  let published := mqtt_check_msg env.linkUp env.pubOk s7
  ({ s7 with cum_tim_s := s7.cum_tim_s + 1 }, rendered, published)

/-- Run the scheduler callback once per entry of a list of tick
environments, keeping only the state. -/
def tickRunL : List TickEnv → SysState → SysState
  | [], s => s
  | e :: es, s => tickRunL es (timer_fun e s).1

/-- The six publish channel names in the order mqtt_check_msg sends them. -/
def mqttChannels : List String :=
  ["str_tim", "str_vol_v", "str_vol_ma", "str_pwr_W", "str_vol_mWh", "upt_tim_str"]

/-- A concrete tick environment: sensor present, link up, everything
succeeding. -/
def envA : TickEnv where
  linkUp := true
  sensorCount := 1
  inaVol := 12
  inaCur := 5
  ntpOk := true
  mqttOk := true
  pubOk := fun _ => true
  stamp := "2024-01-01 01:00:00"

/-- A concrete tick environment in which the boot scan found no device. -/
def envB : TickEnv where
  linkUp := true
  sensorCount := 0
  inaVol := 12
  inaCur := 5
  ntpOk := true
  mqttOk := true
  pubOk := fun _ => true
  stamp := "2024-01-01 01:00:00"

/-- A concrete numeric state used to exercise the formatter: 12 V, 500 mA,
6 W, 0.4 mWh accumulated, 3661 s elapsed. -/
def exState : SysState :=
  { bootState with
    cur_vol_v := 12
    cur_cur_mA := 500
    cur_pwr_W := 6
    con_pwr_mWh := 2 / 5
    cum_tim_s := 3661 }

/-! ## Helper lemmas -/

lemma retryStep_flag_one (l a : Bool) (s : RetrySt) (h : s.flag = 1) :
    (retryStep l a s).1.flag = 1 ∧ (retryStep l a s).2 = false := by
  simp [retryStep, h]

lemma retryRunL_flag_one (envs : List (Bool × Bool)) (s : RetrySt) (h : s.flag = 1) :
    (retryRunL envs s).flag = 1 := by
  induction envs generalizing s with
  | nil => simpa [retryRunL] using h
  | cons e es ih =>
    simp only [retryRunL]
    exact ih _ (retryStep_flag_one e.1 e.2 s h).1

lemma retryStep_counter_lt (l a : Bool) (s : RetrySt) :
    (retryStep l a s).1.counter < 40 := by
  simp only [retryStep]
  split_ifs <;> simp [Nat.mod_lt]

lemma retryStep_attempt (l a : Bool) (s : RetrySt) (h : (retryStep l a s).2 = true) :
    3 ≤ (s.counter + 1) % 40 ∧ s.flag = 0 ∧ l = true ∧ (retryStep l a s).1.counter = 0 := by
  by_cases hc : 3 ≤ (s.counter + 1) % 40 ∧ s.flag = 0 ∧ l = true
  · exact ⟨hc.1, hc.2.1, hc.2.2, by simp [retryStep, hc]⟩
  · simp [retryStep, hc] at h


/-! Per-stage projection lemmas: which fields each stage of the tick leaves
unchanged, and the value of the fields it writes. -/


/-! Per-stage projection lemmas: which fields each stage of the tick leaves
unchanged, and the values of the fields it writes. -/

lemma gpvma_keeps (cnt : ℕ) (v i : ℚ) (s : SysState) :
    (get_pwr_V_ma cnt v i s).con_pwr_mWh = s.con_pwr_mWh ∧
    (get_pwr_V_ma cnt v i s).cum_tim_s = s.cum_tim_s ∧
    (get_pwr_V_ma cnt v i s).ntc_flag = s.ntc_flag ∧
    (get_pwr_V_ma cnt v i s).mqtt_flag = s.mqtt_flag ∧
    (get_pwr_V_ma cnt v i s).loop_rtc = s.loop_rtc ∧
    (get_pwr_V_ma cnt v i s).loop_mqtt = s.loop_mqtt := by
  simp only [get_pwr_V_ma]
  split_ifs <;> exact ⟨rfl, rfl, rfl, rfl, rfl, rfl⟩

@[simp] lemma gpvma_con (cnt : ℕ) (v i : ℚ) (s : SysState) :
    (get_pwr_V_ma cnt v i s).con_pwr_mWh = s.con_pwr_mWh := (gpvma_keeps cnt v i s).1

@[simp] lemma gpvma_cum (cnt : ℕ) (v i : ℚ) (s : SysState) :
    (get_pwr_V_ma cnt v i s).cum_tim_s = s.cum_tim_s := (gpvma_keeps cnt v i s).2.1

@[simp] lemma gpvma_ntc (cnt : ℕ) (v i : ℚ) (s : SysState) :
    (get_pwr_V_ma cnt v i s).ntc_flag = s.ntc_flag := (gpvma_keeps cnt v i s).2.2.1

@[simp] lemma gpvma_mqtt (cnt : ℕ) (v i : ℚ) (s : SysState) :
    (get_pwr_V_ma cnt v i s).mqtt_flag = s.mqtt_flag := (gpvma_keeps cnt v i s).2.2.2.1

@[simp] lemma gpvma_lrtc (cnt : ℕ) (v i : ℚ) (s : SysState) :
    (get_pwr_V_ma cnt v i s).loop_rtc = s.loop_rtc := (gpvma_keeps cnt v i s).2.2.2.2.1

@[simp] lemma gpvma_lmqtt (cnt : ℕ) (v i : ℚ) (s : SysState) :
    (get_pwr_V_ma cnt v i s).loop_mqtt = s.loop_mqtt := (gpvma_keeps cnt v i s).2.2.2.2.2

@[simp] lemma gpwh_vol (s : SysState) : (get_pwr_mWh s).cur_vol_v = s.cur_vol_v := rfl

@[simp] lemma gpwh_cur (s : SysState) : (get_pwr_mWh s).cur_cur_mA = s.cur_cur_mA := rfl

@[simp] lemma gpwh_pwr (s : SysState) : (get_pwr_mWh s).cur_pwr_W = s.cur_pwr_W := rfl

@[simp] lemma gpwh_con (s : SysState) :
    (get_pwr_mWh s).con_pwr_mWh = s.con_pwr_mWh + s.cur_vol_v * s.cur_cur_mA / 3600 := rfl

@[simp] lemma gpwh_cum (s : SysState) : (get_pwr_mWh s).cum_tim_s = s.cum_tim_s := rfl

@[simp] lemma gpwh_ntc (s : SysState) : (get_pwr_mWh s).ntc_flag = s.ntc_flag := rfl

@[simp] lemma gpwh_mqtt (s : SysState) : (get_pwr_mWh s).mqtt_flag = s.mqtt_flag := rfl

@[simp] lemma gpwh_lrtc (s : SysState) : (get_pwr_mWh s).loop_rtc = s.loop_rtc := rfl

@[simp] lemma gpwh_lmqtt (s : SysState) : (get_pwr_mWh s).loop_mqtt = s.loop_mqtt := rfl

@[simp] lemma crtc_vol (l a : Bool) (s : SysState) :
    (check_rtc l a s).cur_vol_v = s.cur_vol_v := rfl

@[simp] lemma crtc_cur (l a : Bool) (s : SysState) :
    (check_rtc l a s).cur_cur_mA = s.cur_cur_mA := rfl

@[simp] lemma crtc_pwr (l a : Bool) (s : SysState) :
    (check_rtc l a s).cur_pwr_W = s.cur_pwr_W := rfl

@[simp] lemma crtc_con (l a : Bool) (s : SysState) :
    (check_rtc l a s).con_pwr_mWh = s.con_pwr_mWh := rfl

@[simp] lemma crtc_cum (l a : Bool) (s : SysState) :
    (check_rtc l a s).cum_tim_s = s.cum_tim_s := rfl

@[simp] lemma crtc_mqtt (l a : Bool) (s : SysState) :
    (check_rtc l a s).mqtt_flag = s.mqtt_flag := rfl

@[simp] lemma crtc_lmqtt (l a : Bool) (s : SysState) :
    (check_rtc l a s).loop_mqtt = s.loop_mqtt := rfl

@[simp] lemma crtc_ntc (l a : Bool) (s : SysState) :
    (check_rtc l a s).ntc_flag = (retryStep l a ⟨s.loop_rtc, s.ntc_flag⟩).1.flag := rfl

@[simp] lemma crtc_lrtc (l a : Bool) (s : SysState) :
    (check_rtc l a s).loop_rtc = (retryStep l a ⟨s.loop_rtc, s.ntc_flag⟩).1.counter := rfl

@[simp] lemma tts_vol (s : SysState) : (tran_to_str s).cur_vol_v = s.cur_vol_v := rfl

@[simp] lemma tts_cur (s : SysState) : (tran_to_str s).cur_cur_mA = s.cur_cur_mA := rfl

@[simp] lemma tts_pwr (s : SysState) : (tran_to_str s).cur_pwr_W = s.cur_pwr_W := rfl

@[simp] lemma tts_con (s : SysState) : (tran_to_str s).con_pwr_mWh = s.con_pwr_mWh := rfl

@[simp] lemma tts_cum (s : SysState) : (tran_to_str s).cum_tim_s = s.cum_tim_s := rfl

@[simp] lemma tts_ntc (s : SysState) : (tran_to_str s).ntc_flag = s.ntc_flag := rfl

@[simp] lemma tts_mqtt (s : SysState) : (tran_to_str s).mqtt_flag = s.mqtt_flag := rfl

@[simp] lemma tts_lrtc (s : SysState) : (tran_to_str s).loop_rtc = s.loop_rtc := rfl

@[simp] lemma tts_lmqtt (s : SysState) : (tran_to_str s).loop_mqtt = s.loop_mqtt := rfl

@[simp] lemma tts_str_tim (s : SysState) :
    (tran_to_str s).str_tim = sec_to_str s.cum_tim_s := rfl

@[simp] lemma cmc_vol (l a : Bool) (s : SysState) :
    (check_mqtt_con l a s).cur_vol_v = s.cur_vol_v := rfl

@[simp] lemma cmc_cur (l a : Bool) (s : SysState) :
    (check_mqtt_con l a s).cur_cur_mA = s.cur_cur_mA := rfl

@[simp] lemma cmc_pwr (l a : Bool) (s : SysState) :
    (check_mqtt_con l a s).cur_pwr_W = s.cur_pwr_W := rfl

@[simp] lemma cmc_con (l a : Bool) (s : SysState) :
    (check_mqtt_con l a s).con_pwr_mWh = s.con_pwr_mWh := rfl

@[simp] lemma cmc_cum (l a : Bool) (s : SysState) :
    (check_mqtt_con l a s).cum_tim_s = s.cum_tim_s := rfl

@[simp] lemma cmc_ntc (l a : Bool) (s : SysState) :
    (check_mqtt_con l a s).ntc_flag = s.ntc_flag := rfl

@[simp] lemma cmc_lrtc (l a : Bool) (s : SysState) :
    (check_mqtt_con l a s).loop_rtc = s.loop_rtc := rfl

@[simp] lemma cmc_str_tim (l a : Bool) (s : SysState) :
    (check_mqtt_con l a s).str_tim = s.str_tim := rfl

@[simp] lemma cmc_mqtt (l a : Bool) (s : SysState) :
    (check_mqtt_con l a s).mqtt_flag = (retryStep l a ⟨s.loop_mqtt, s.mqtt_flag⟩).1.flag := rfl

@[simp] lemma cmc_lmqtt (l a : Bool) (s : SysState) :
    (check_mqtt_con l a s).loop_mqtt = (retryStep l a ⟨s.loop_mqtt, s.mqtt_flag⟩).1.counter := rfl

/-! Tick-level field lemmas. -/

lemma timer_fun_cum (env : TickEnv) (s : SysState) :
    (timer_fun env s).1.cum_tim_s = s.cum_tim_s + 1 := by
  simp [timer_fun]

lemma timer_fun_str_tim (env : TickEnv) (s : SysState) :
    (timer_fun env s).1.str_tim = sec_to_str s.cum_tim_s := by
  simp [timer_fun]

lemma timer_fun_pub_head (env : TickEnv) (s : SysState) (h : env.linkUp = true) :
    (timer_fun env s).2.2.head? = some ("str_tim", sec_to_str s.cum_tim_s) := by
  simp only [timer_fun, mqtt_check_msg, mqttMsgs, h, if_true, cmc_str_tim, tts_str_tim,
    pubSeq]
  split_ifs <;> simp

lemma timer_fun_ntc_one (env : TickEnv) (s : SysState) (h : s.ntc_flag = 1) :
    (timer_fun env s).1.ntc_flag = 1 := by
  simp [timer_fun, (retryStep_flag_one env.linkUp env.ntpOk ⟨s.loop_rtc, s.ntc_flag⟩ h).1]

lemma timer_fun_mqtt_one (env : TickEnv) (s : SysState) (h : s.mqtt_flag = 1) :
    (timer_fun env s).1.mqtt_flag = 1 := by
  simp [timer_fun, (retryStep_flag_one env.linkUp env.mqttOk ⟨s.loop_mqtt, s.mqtt_flag⟩ h).1]

lemma timer_fun_loops_lt (env : TickEnv) (s : SysState) :
    (timer_fun env s).1.loop_rtc < 40 ∧ (timer_fun env s).1.loop_mqtt < 40 := by
  constructor <;> simp [timer_fun, retryStep_counter_lt]

lemma gpvma_sampled (cnt : ℕ) (v i : ℚ) (s : SysState) (hc : cnt = 1) (hi : 0 ≤ i) :
    (get_pwr_V_ma cnt v i s).cur_vol_v = v ∧
    (get_pwr_V_ma cnt v i s).cur_cur_mA = i * 10 := by
  subst hc
  have h10 : ¬(i * 10 < 0) := not_lt.mpr (by positivity)
  simp [get_pwr_V_ma, h10]

lemma timer_fun_energy (env : TickEnv) (s : SysState) (hc : env.sensorCount = 1)
    (hi : 0 ≤ env.inaCur) :
    (timer_fun env s).1.con_pwr_mWh
      = s.con_pwr_mWh + env.inaVol * (env.inaCur * 10) / 3600 := by
  obtain ⟨hv, hcur⟩ := gpvma_sampled env.sensorCount env.inaVol env.inaCur
    { s with upt_tim_str := env.stamp } hc hi
  simp [timer_fun, hv, hcur]

lemma gpvma_absent (cnt : ℕ) (v i : ℚ) (s : SysState) (hc : cnt ≠ 1)
    (h1 : s.cur_vol_v = 0) (h2 : s.cur_cur_mA = 0) :
    (get_pwr_V_ma cnt v i s).cur_vol_v = 0 ∧
    (get_pwr_V_ma cnt v i s).cur_cur_mA = 0 ∧
    (get_pwr_V_ma cnt v i s).cur_pwr_W = 0 := by
  simp [get_pwr_V_ma, hc, h1, h2]

lemma timer_fun_absent (env : TickEnv) (s : SysState) (hc : env.sensorCount ≠ 1)
    (h1 : s.cur_vol_v = 0) (h2 : s.cur_cur_mA = 0) :
    (timer_fun env s).1.cur_vol_v = 0 ∧ (timer_fun env s).1.cur_cur_mA = 0 ∧
    (timer_fun env s).1.cur_pwr_W = 0 := by
  obtain ⟨a, b, c⟩ := gpvma_absent env.sensorCount env.inaVol env.inaCur
    { s with upt_tim_str := env.stamp } hc h1 h2
  refine ⟨?_, ?_, ?_⟩ <;> simp [timer_fun, a, b, c]

lemma tickRunL_cum (envs : List TickEnv) (s : SysState) :
    (tickRunL envs s).cum_tim_s = s.cum_tim_s + envs.length := by
  induction envs generalizing s with
  | nil => simp [tickRunL]
  | cons e es ih =>
    simp only [tickRunL, ih, timer_fun_cum, List.length_cons]
    omega

lemma tickRunL_loops (envs : List TickEnv) (s : SysState) (h1 : s.loop_rtc < 40)
    (h2 : s.loop_mqtt < 40) :
    (tickRunL envs s).loop_rtc < 40 ∧ (tickRunL envs s).loop_mqtt < 40 := by
  induction envs generalizing s with
  | nil => exact ⟨h1, h2⟩
  | cons e es ih => exact ih _ (timer_fun_loops_lt e s).1 (timer_fun_loops_lt e s).2

lemma tickRunL_absent (es : List TickEnv) (s : SysState)
    (h : ∀ e ∈ es, e.sensorCount ≠ 1) (h1 : s.cur_vol_v = 0) (h2 : s.cur_cur_mA = 0)
    (h3 : s.cur_pwr_W = 0) :
    (tickRunL es s).cur_vol_v = 0 ∧ (tickRunL es s).cur_cur_mA = 0 ∧
    (tickRunL es s).cur_pwr_W = 0 := by
  induction es generalizing s with
  | nil => exact ⟨h1, h2, h3⟩
  | cons e es ih =>
    obtain ⟨a, b, c⟩ := timer_fun_absent e s (h e (by simp)) h1 h2
    exact ih _ (fun x hx => h x (by simp [hx])) a b c

/-! Formatting helper lemmas. -/

lemma roundHalfEven_intCast (z : ℤ) : roundHalfEven (z : ℚ) = z := by
  simp only [roundHalfEven, Int.floor_intCast, sub_self]
  norm_num

lemma rhe_two_fifths : roundHalfEven (2 / 5 : ℚ) = 0 := by
  have hf : ⌊(2 / 5 : ℚ)⌋ = 0 := by
    rw [Int.floor_eq_iff]
    norm_num
  simp only [roundHalfEven, hf]
  norm_num

lemma fmt_12 : fmtFixed 3 (12 : ℚ) = "12.000" := by
  have h : (12 : ℚ) * 10 ^ 3 = ((12000 : ℤ) : ℚ) := by norm_num
  simp only [fmtFixed, h, roundHalfEven_intCast]
  decide

lemma fmt_500 : fmtFixed 1 (500 : ℚ) = "500.0" := by
  have h : (500 : ℚ) * 10 ^ 1 = ((5000 : ℤ) : ℚ) := by norm_num
  simp only [fmtFixed, h, roundHalfEven_intCast]
  decide

lemma fmt_6 : fmtFixed 3 (6 : ℚ) = "6.000" := by
  have h : (6 : ℚ) * 10 ^ 3 = ((6000 : ℤ) : ℚ) := by norm_num
  simp only [fmtFixed, h, roundHalfEven_intCast]
  decide

lemma fmt_04 : fmtFixed 0 (2 / 5 : ℚ) = "0" := by
  have h : (2 / 5 : ℚ) * 10 ^ 0 = 2 / 5 := by norm_num
  simp only [fmtFixed, h, rhe_two_fifths]
  decide

lemma i2s_l_of_le (v len_t : ℕ) (h : len_t ≤ (toString v).length) :
    i2s_l v len_t = toString v := by
  simp only [i2s_l, Nat.sub_eq_zero_of_le h, List.replicate_zero]
  rfl

lemma sec_to_str_hours (hh : ℕ) (h : 2 ≤ (toString hh).length) :
    sec_to_str (3600 * hh) = toString hh ++ ":00:00" := by
  have h1 : 3600 * hh / 3600 = hh := by omega
  have h2 : 3600 * hh % 3600 = 0 := by omega
  have h3 : 3600 * hh % 60 = 0 := by omega
  simp only [sec_to_str, h1, h2, h3]
  rw [i2s_l_of_le hh 2 h]
  have h4 : i2s_l (0 / 60) 2 = "00" := by decide
  rw [h4]
  rw [String.append_assoc, String.append_assoc, String.append_assoc]
  congr 1

/-! ## Claim theorems -/

/-- C2, counterexample: with the link up, the machine attempts already on
the very first tick from the boot state (counter initialized to 5), i.e.
within the first 3 ticks; and from the state just after a failed attempt
(counter 0, flag 0) the next attempt happens on the 3rd tick, not after a
40-tick wrap. -/
theorem retry_schedule_counterexample :
    (retryStep true false ⟨5, 0⟩).2 = true ∧
    retryTrace (List.replicate 4 (true, false)) ⟨0, 0⟩ = [false, false, true, false] := by
  decide

/-- C2 (amended): from the boot state (counter = 5) with the link up, the
first attempt happens on the first tick regardless of its outcome, and with
the link up and every attempt failing the attempt trace over 7 ticks is
attempts on ticks 1, 4 and 7: successive failed attempts are separated by a
fixed 3-tick interval, not 40. -/
theorem retry_schedule_amended :
    ∀ a : Bool,
      (retryStep true a ⟨5, 0⟩).2 = true ∧
      retryTrace (List.replicate 7 (true, false)) ⟨5, 0⟩
        = [true, false, false, true, false, false, true] := by
  decide

/-- C5: once a connectivity machine's flag is set (CONNECTED), no step of
the machine clears it — whatever the link precondition and attempt outcome
are, including a dropped link — and no further connection attempt is made;
this holds for a single step, for any run, and for both machines as they
are driven inside the scheduler tick. -/
theorem connected_flag_sticky :
    (∀ (l a : Bool) (s : RetrySt), s.flag = 1 →
        (retryStep l a s).1.flag = 1 ∧ (retryStep l a s).2 = false) ∧
    (∀ (envs : List (Bool × Bool)) (s : RetrySt), s.flag = 1 →
        (retryRunL envs s).flag = 1) ∧
    (∀ (env : TickEnv) (s : SysState), s.ntc_flag = 1 →
        (timer_fun env s).1.ntc_flag = 1) ∧
    (∀ (env : TickEnv) (s : SysState), s.mqtt_flag = 1 →
        (timer_fun env s).1.mqtt_flag = 1) :=
  ⟨retryStep_flag_one, retryRunL_flag_one, timer_fun_ntc_one, timer_fun_mqtt_one⟩

/-- C5, witness: a CONNECTED time-sync machine at counter 7 whose link has
dropped keeps its flag and does not attempt. -/
theorem connected_flag_sticky_witness :
    (retryStep false true ⟨7, 1⟩).1.flag = 1 ∧ (retryStep false true ⟨7, 1⟩).2 = false :=
  connected_flag_sticky.1 false true ⟨7, 1⟩ rfl

/-- C6: the retry counter stays in [0,40) after every step and over every
scheduler run from boot; an attempt is made only when the just-incremented
counter is at least 3, the flag is clear and the link is up; and right
after any attempt the counter is 0. -/
theorem retry_counter_invariants :
    (∀ (l a : Bool) (s : RetrySt), (retryStep l a s).1.counter < 40) ∧
    (∀ (l a : Bool) (s : RetrySt), (retryStep l a s).2 = true →
        3 ≤ (s.counter + 1) % 40 ∧ s.flag = 0 ∧ l = true ∧
          (retryStep l a s).1.counter = 0) ∧
    (∀ envs : List TickEnv,
        (tickRunL envs bootState).loop_rtc < 40 ∧ (tickRunL envs bootState).loop_mqtt < 40) :=
  ⟨retryStep_counter_lt, retryStep_attempt,
   fun envs => tickRunL_loops envs bootState (by decide) (by decide)⟩

/-- C6, witness: the attempt taken on the first tick from boot satisfies the
attempt preconditions and resets the counter to 0. -/
theorem retry_counter_invariants_witness :
    3 ≤ ((5 : ℕ) + 1) % 40 ∧ (RetrySt.mk 5 0).flag = 0 ∧ true = true ∧
      (retryStep true true ⟨5, 0⟩).1.counter = 0 :=
  retry_counter_invariants.2.1 true true ⟨5, 0⟩ rfl

/-- C7: after sampling, the current is never negative; the derived power is
always voltage times current over 1000; and when the sensor is present and
the raw current is negative, the clamp makes the current 0 and hence the
power 0. -/
theorem current_clamped (cnt : ℕ) (v i : ℚ) (s : SysState) :
    0 ≤ (get_pwr_V_ma cnt v i s).cur_cur_mA ∧
    (get_pwr_V_ma cnt v i s).cur_pwr_W =
      (get_pwr_V_ma cnt v i s).cur_vol_v * (get_pwr_V_ma cnt v i s).cur_cur_mA / 1000 ∧
    (cnt = 1 → i < 0 →
      (get_pwr_V_ma cnt v i s).cur_cur_mA = 0 ∧ (get_pwr_V_ma cnt v i s).cur_pwr_W = 0) := by
  refine ⟨?_, ?_, ?_⟩
  · simp only [get_pwr_V_ma]
    split_ifs with h1 h2 h2
    · exact le_refl 0
    · exact not_lt.mp h2
    · exact le_refl 0
    · exact not_lt.mp h2
  · simp only [get_pwr_V_ma]
  · intro hc hi
    subst hc
    have h10 : i * 10 < 0 := mul_neg_of_neg_of_pos hi (by norm_num)
    simp [get_pwr_V_ma, h10]

/-- C7, witness: sensor present and raw current −1 yields current 0 and
power 0. -/
theorem current_clamped_witness :
    (get_pwr_V_ma 1 12 (-1) bootState).cur_cur_mA = 0 ∧
    (get_pwr_V_ma 1 12 (-1) bootState).cur_pwr_W = 0 :=
  (current_clamped 1 12 (-1) bootState).2.2 rfl (by decide)

/-- C1, counterexample: with the link up and the broker failing exactly the
second publish (channel str_vol_v), only the first two fields are attempted;
fields 3 to 6 of the fixed sequence are never attempted in that tick. -/
theorem publish_abort_counterexample :
    (mqtt_check_msg true (fun c => !(c == "str_vol_v")) bootState).map Prod.fst
        = ["str_tim", "str_vol_v"] ∧
    "str_vol_ma" ∉
      (mqtt_check_msg true (fun c => !(c == "str_vol_v")) bootState).map Prod.fst ∧
    "str_pwr_W" ∉
      (mqtt_check_msg true (fun c => !(c == "str_vol_v")) bootState).map Prod.fst ∧
    "str_vol_mWh" ∉
      (mqtt_check_msg true (fun c => !(c == "str_vol_v")) bootState).map Prod.fst ∧
    "upt_tim_str" ∉
      (mqtt_check_msg true (fun c => !(c == "str_vol_v")) bootState).map Prod.fst := by
  decide

/-- C1 (amended): the six publishes sit inside one try block, so a failed
send aborts the rest of the tick's sends: whenever the publish of channel i
of the fixed sequence fails, no channel j after it is attempted in that
tick (the error is caught at function level and the tick continues). -/
theorem publish_abort_amended (linkUp : Bool) (ok : String → Bool) (s : SysState)
    (i j : ℕ) (hj : j < 6) (hij : i < j)
    (hfail : ok (mqttChannels.getD i "") = false) :
    mqttChannels.getD j "" ∉ (mqtt_check_msg linkUp ok s).map Prod.fst := by
  cases linkUp with
  | false => simp [mqtt_check_msg]
  | true =>
    interval_cases j <;> interval_cases i <;>
      simp_all [mqtt_check_msg, mqttMsgs, mqttChannels, pubSeq] <;>
      split_ifs <;> simp_all

/-- C1 (amended), witness: failure on channel 2 means channel 3 is not
attempted. -/
theorem publish_abort_amended_witness :
    mqttChannels.getD 2 ""
      ∉ (mqtt_check_msg true (fun c => !(c == "str_vol_v")) bootState).map Prod.fst :=
  publish_abort_amended true (fun c => !(c == "str_vol_v")) bootState 1 2
    (by decide) (by decide) (by decide)

/-- C3: holding a constant sensor reading (sensor present, non-negative raw
current) for n consecutive ticks with no reset adds exactly
n * voltage * current / 3600 mWh to the accumulator, the reading being
voltage env.inaVol and current env.inaCur * 10 mA. -/
theorem energy_accumulates_linearly (env : TickEnv) (s : SysState) (n : ℕ)
    (hc : env.sensorCount = 1) (hi : 0 ≤ env.inaCur) :
    (tickRunL (List.replicate n env) s).con_pwr_mWh
      = s.con_pwr_mWh + n * (env.inaVol * (env.inaCur * 10)) / 3600 := by
  induction n generalizing s with
  | zero => simp [tickRunL]
  | succ n ih =>
    simp only [List.replicate_succ, tickRunL]
    rw [ih ((timer_fun env s).1), timer_fun_energy env s hc hi]
    push_cast
    ring

/-- C3, witness: 3 ticks at 12 V / 50 mA add 3 * 12 * 50 / 3600 mWh. -/
theorem energy_accumulates_linearly_witness :
    (tickRunL (List.replicate 3 envA) bootState).con_pwr_mWh
      = bootState.con_pwr_mWh + 3 * (envA.inaVol * (envA.inaCur * 10)) / 3600 :=
  energy_accumulates_linearly envA bootState 3 rfl (by decide)

/-- C4: on the tick after any run of envs.length ticks from a reset state
(so on tick number envs.length + 1), the callback formats, and publishes as
the head of the fixed publish sequence when the link is up, the elapsed
value envs.length = N − 1 seconds, and only then increments the counter,
leaving it at N. -/
theorem tick_order_elapsed (envs : List TickEnv) (e : TickEnv) (s : SysState)
    (h0 : s.cum_tim_s = 0) :
    (timer_fun e (tickRunL envs s)).1.cum_tim_s = envs.length + 1 ∧
    (timer_fun e (tickRunL envs s)).1.str_tim = sec_to_str envs.length ∧
    (e.linkUp = true →
      (timer_fun e (tickRunL envs s)).2.2.head? = some ("str_tim", sec_to_str envs.length)) := by
  have hcum : (tickRunL envs s).cum_tim_s = envs.length := by
    rw [tickRunL_cum, h0, Nat.zero_add]
  exact ⟨by rw [timer_fun_cum, hcum], by rw [timer_fun_str_tim, hcum],
         fun hl => by rw [timer_fun_pub_head _ _ hl, hcum]⟩

/-- C4, witness: the first tick after reset formats and publishes 0 elapsed
seconds and then sets the counter to 1. -/
theorem tick_order_elapsed_witness :
    (timer_fun envA (tickRunL [] bootState)).1.cum_tim_s = 1 ∧
    (timer_fun envA (tickRunL [] bootState)).1.str_tim = sec_to_str 0 ∧
    (envA.linkUp = true →
      (timer_fun envA (tickRunL [] bootState)).2.2.head? = some ("str_tim", sec_to_str 0)) :=
  tick_order_elapsed [] envA bootState rfl

/-- C9: when the boot scan did not find exactly one device, every tick
leaves the reading frozen at the power-on default: zero voltage, zero
current, zero power, after any number of ticks (and each tick is a total
function, so no tick can crash). -/
theorem sensor_absent_reading_frozen (envs : List TickEnv)
    (h : ∀ e ∈ envs, e.sensorCount ≠ 1) :
    (tickRunL envs bootState).cur_vol_v = 0 ∧
    (tickRunL envs bootState).cur_cur_mA = 0 ∧
    (tickRunL envs bootState).cur_pwr_W = 0 :=
  tickRunL_absent envs bootState h rfl rfl rfl

/-- C9, witness: two ticks with the sensor absent keep the zero reading. -/
theorem sensor_absent_reading_frozen_witness :
    (tickRunL [envB, envB] bootState).cur_vol_v = 0 ∧
    (tickRunL [envB, envB] bootState).cur_cur_mA = 0 ∧
    (tickRunL [envB, envB] bootState).cur_pwr_W = 0 :=
  sensor_absent_reading_frozen [envB, envB] (by decide)

/-- C10: for every behaviour of the bus collaborator, including a raised
error, read_ina219_register returns none or a 16-bit value and never
propagates an exception, and real_time_register_read always returns a
record (its result is never the None of a caught exception). -/
theorem register_read_safe (bus : ℕ → Except String (Byte × Byte)) (reg : ℕ) :
    ((read_ina219_register bus reg).all fun v => decide (v < 65536)) = true ∧
    (real_time_register_read bus).isSome = true := by
  constructor
  · unfold read_ina219_register read_reg_body
    cases hbus : bus reg with
    | error e => simp
    | ok p =>
      obtain ⟨b0, b1⟩ := p
      simp only [Option.all_some, decide_eq_true_iff]
      have h0 : b0.val < 2 ^ 8 := b0.isLt
      have h1 : b1.val < 2 ^ 8 := b1.isLt
      have h := Nat.append_lt h1 h0
      calc b0.val <<< 8 ||| b1.val < 2 ^ (8 + 8) := h
        _ = 65536 := by norm_num
  · rfl

/-- C8: the formatter renders voltage with 3 decimals, current with 1,
power with 3, energy with 0 decimals (rounded, 0.4 mWh giving "0"), and the
elapsed time as zero-padded HH:MM:SS where 3661 s gives "01:01:01" and the
hours field is never truncated or wrapped: any hour count rendered with two
or more digits appears in full. -/
theorem formatter_precision :
    (tran_to_str exState).str_vol_v = "12.000" ∧
    (tran_to_str exState).str_vol_ma = "500.0" ∧
    (tran_to_str exState).str_pwr_W = "6.000" ∧
    (tran_to_str exState).str_vol_mWh = "0" ∧
    (tran_to_str exState).str_tim = "01:01:01" ∧
    sec_to_str 360000 = "100:00:00" ∧
    (∀ hh : ℕ, 2 ≤ (toString hh).length →
      sec_to_str (3600 * hh) = toString hh ++ ":00:00") :=
  ⟨fmt_12, fmt_500, fmt_6, fmt_04, by decide, by decide, sec_to_str_hours⟩

/-- C8, witness: 100 hours of elapsed time render as a three-digit hours
field. -/
theorem formatter_precision_witness :
    sec_to_str (3600 * 100) = toString 100 ++ ":00:00" :=
  formatter_precision.2.2.2.2.2.2 100 (by decide)
